import Mathlib

/-!
Verification of the BookFinder component (src/google-books.ts): data model,
query construction, per-candidate relevance scoring, filtering, stable
descending sort, candidate normalization, and the ISBN lookup path.

Modelling conventions.
JavaScript strings are modelled as Lean strings; the ASCII fragment of
toLowerCase and trim is modelled by jsToLowerCase and jsTrim; substring
containment (String.prototype.includes) by strIncludes; numbers by the
rationals; optional provider fields by Option with JavaScript truthiness
spelled out at each use site (an absent field and the empty string are both
falsy). HTTP transport is out of scope: each operation takes the decoded
provider response (the optional items list) as an explicit argument, and the
request URL each operation would issue is modelled by a separate function.

A central fact about the source: in search, scoredResults is declared with
the const keyword and is then reassigned by the minRating filter, by the
exactTitleMatch narrowing, and by the empty-set fallback.  TypeScript rejects
this program (error TS2588), and as plain JavaScript each reassignment throws
a TypeError at run time.  Every path of search that would execute such a
reassignment is therefore modelled as the failure SearchError.constAssignment.
The in-place sort and the trailing index-0 access do not reassign the
binding, so they are modelled directly; the unchecked index-0 access is
modelled with an explicit SearchError.indexOutOfBounds branch so that its
safety can be stated and proved.
-/

/-- ASCII fragment of the JavaScript String.prototype.toLowerCase. -/
def jsToLowerCase (s : String) : String := String.mk (s.toList.map Char.toLower)

/-- JavaScript String.prototype.trim: drop whitespace from both ends. -/
def jsTrim (s : String) : String :=
  String.mk (((s.toList.dropWhile Char.isWhitespace).reverse.dropWhile Char.isWhitespace).reverse)

/-- Contiguous-sublist test on character lists, the model of
String.prototype.includes.  An empty needle is found in every haystack. -/
def listIncludes : List Char → List Char → Bool
  | [], p => p.isEmpty
  | c :: t, p => p.isPrefixOf (c :: t) || listIncludes t p

/-- JavaScript h.includes(n). -/
def strIncludes (h n : String) : Bool := listIncludes h.toList n.toList

/-- UTF-8 encoding of one code point, as byte values. -/
def utf8Bytes (c : Char) : List Nat :=
  let n := c.toNat
  if n < 128 then [n]
  else if n < 2048 then [192 + n / 64, 128 + n % 64]
  else if n < 65536 then [224 + n / 4096, 128 + (n / 64) % 64, 128 + n % 64]
  else [240 + n / 262144, 128 + (n / 4096) % 64, 128 + (n / 64) % 64, 128 + n % 64]

/-- Upper-case hexadecimal digit for a value below 16. -/
def hexDigitChar (n : Nat) : Char := if n < 10 then Char.ofNat (48 + n) else Char.ofNat (55 + n)

/-- Bytes left unescaped by encodeURIComponent: ASCII alphanumerics and
the marks - . ! ~ * squote ( ) _ . -/
def isUnreservedByte (n : Nat) : Bool :=
  (48 ≤ n && n ≤ 57) || (65 ≤ n && n ≤ 90) || (97 ≤ n && n ≤ 122) ||
  n = 45 || n = 46 || n = 33 || n = 126 || n = 42 || n = 39 || n = 40 || n = 41 || n = 95

/-- Concatenation of the images of a list-valued function. -/
def listFlatMap {α β : Type} (f : α → List β) : List α → List β
  | [] => []
  | x :: t => f x ++ listFlatMap f t

/-- The JavaScript global encodeURIComponent: percent-encode, byte by byte
over the UTF-8 encoding, everything outside the unreserved set. -/
def encodeURIComponent (s : String) : String :=
  String.mk (listFlatMap
    (fun n =>
      if isUnreservedByte n then [Char.ofNat n]
      else ['%', hexDigitChar (n / 16), hexDigitChar (n % 16)])
    (listFlatMap utf8Bytes s.toList))

/-- One entry of the industryIdentifiers list of a volume. -/
structure IndustryIdentifier where
  type : String
  identifier : String
deriving DecidableEq

/-- The imageLinks block of a volume. -/
structure ImageLinks where
  thumbnail : String
deriving DecidableEq

/-- The volumeInfo block of a provider candidate.  The provider id and the
title are required; every other field is optional (the source reads them
with optional chaining or a falsy-default). -/
structure VolumeInfo where
  title : String
  authors : Option (List String) := none
  publisher : Option String := none
  publishedDate : Option String := none
  description : Option String := none
  industryIdentifiers : Option (List IndustryIdentifier) := none
  pageCount : Option ℚ := none
  categories : Option (List String) := none
  averageRating : Option ℚ := none
  ratingsCount : Option ℚ := none
  maturityRating : Option String := none
  imageLinks : Option ImageLinks := none
  language : Option String := none
  previewLink : Option String := none
  infoLink : Option String := none
  canonicalVolumeLink : Option String := none
deriving DecidableEq

/-- A raw provider candidate (interface Book of the source). -/
structure Book where
  id : String
  volumeInfo : VolumeInfo
deriving DecidableEq

/-- The googleBooks block of the normalized output. -/
structure GoogleBooksRef where
  id : String
  preview : String
  info : String
  canonical : String
deriving DecidableEq

/-- The normalized output shape (interface BookResult of the source). -/
structure BookResult where
  title : String
  authors : List String
  publisher : String
  publishedDate : String
  description : String
  image : String
  language : String
  averageRating : ℚ
  ratingsCount : ℚ
  categories : List String
  pageCount : ℚ
  isbn10 : Option String
  isbn13 : Option String
  googleBooks : GoogleBooksRef
deriving DecidableEq

/-- Options of search (interface SearchOptions); a none field means the
caller omitted it, and the destructuring defaults of the source apply. -/
structure SearchOptions where
  maxResults : Option Nat := none
  exactTitleMatch : Option Bool := none
  minRating : Option ℚ := none
  language : Option String := none
deriving DecidableEq

/-- Failure modes of the two operations.  notFound carries the thrown
message; constAssignment marks a path on which the source reassigns the
const binding scoredResults (TS2588, a TypeError as plain JavaScript);
indexOutOfBounds marks the unchecked index-0 access after sorting. -/
inductive SearchError where
  | notFound (msg : String)
  | constAssignment
  | indexOutOfBounds
deriving DecidableEq

/-- The per-candidate relevance score of search, transcribed from the
score accumulation of the source: base 10, ratingsCount / 100,
averageRating * 5, then the mutually exclusive title bonuses (guarded by
the truthiness of the title), then 5 each for a truthy description, a
truthy thumbnail and a non-empty identifier list. -/
def score (query : String) (book : Book) : ℚ :=
  let score0 : ℚ := 0
  let score1 := score0 + 10
  let score2 := score1 + (book.volumeInfo.ratingsCount.getD 0) / 100
  let score3 := score2 + (book.volumeInfo.averageRating.getD 0) * 5
  let score4 :=
    if book.volumeInfo.title ≠ ("") ∧
        jsTrim (jsToLowerCase query) = jsTrim (jsToLowerCase book.volumeInfo.title) then
      score3 + 50
    else if book.volumeInfo.title ≠ ("") ∧
        strIncludes (jsToLowerCase book.volumeInfo.title) (jsToLowerCase query) then
      score3 + 20
    else score3
  let score5 := if book.volumeInfo.description.getD ("") ≠ ("") then score4 + 5 else score4
  let score6 :=
    if (book.volumeInfo.imageLinks.map ImageLinks.thumbnail).getD ("") ≠ ("") then score5 + 5
    else score5
  let score7 :=
    if 0 < (book.volumeInfo.industryIdentifiers.getD []).length then score6 + 5 else score6
  score7

/-- The scoring formula exactly as the specification claim states it: no
truthiness guard on the title bonuses, and a presence test (rather than a
non-emptiness test) for the description and thumbnail bonuses. -/
def specScore (query : String) (book : Book) : ℚ :=
  10 + (book.volumeInfo.ratingsCount.getD 0) / 100 + (book.volumeInfo.averageRating.getD 0) * 5
  + (if jsTrim (jsToLowerCase query) = jsTrim (jsToLowerCase book.volumeInfo.title) then 50
     else if strIncludes (jsToLowerCase book.volumeInfo.title) (jsToLowerCase query) then 20
     else 0)
  + (if book.volumeInfo.description.isSome then 5 else 0)
  + (if book.volumeInfo.imageLinks.isSome then 5 else 0)
  + (if 0 < (book.volumeInfo.industryIdentifiers.getD []).length then 5 else 0)

/-- The scoring formula amended to what the code computes: the title
bonuses additionally require a non-empty title, and the description and
thumbnail bonuses require a non-empty (not merely present) value. -/
def specScoreAmended (query : String) (book : Book) : ℚ :=
  10 + (book.volumeInfo.ratingsCount.getD 0) / 100 + (book.volumeInfo.averageRating.getD 0) * 5
  + (if book.volumeInfo.title ≠ ("") ∧
        jsTrim (jsToLowerCase query) = jsTrim (jsToLowerCase book.volumeInfo.title) then 50
     else if book.volumeInfo.title ≠ ("") ∧
        strIncludes (jsToLowerCase book.volumeInfo.title) (jsToLowerCase query) then 20
     else 0)
  + (if book.volumeInfo.description.getD ("") ≠ ("") then 5 else 0)
  + (if (book.volumeInfo.imageLinks.map ImageLinks.thumbnail).getD ("") ≠ ("") then 5 else 0)
  + (if 0 < (book.volumeInfo.industryIdentifiers.getD []).length then 5 else 0)

/-- The regular expression test query.match(/^[0-9-]+$/): a non-empty
string made only of decimal digits and hyphens. -/
def matchDigitsHyphens (q : String) : Bool :=
  !q.isEmpty && q.toList.all (fun c => c.isDigit || c == '-')

/-- Query rewriting of search: wrap as a quoted intitle phrase unless the
query contains a colon or is digits-and-hyphens only. -/
def wrapQuery (query : String) : String :=
  if !(strIncludes query (":")) && !(matchDigitsHyphens query) then
    ("intitle:\"") ++ query ++ ("\"")
  else query

/-- The request URL search issues: encoded rewritten query, the optional
langRestrict parameter, and the maxResults parameter (default 10).  The
source picks the langRestrict fragment with a conditional on the truthiness
of language, so an absent language and an empty-string language both append
nothing. -/
def buildSearchUrl (query : String) (options : SearchOptions) : String :=
  let maxResults := options.maxResults.getD 10
  let langParam :=
    if options.language.getD ("") ≠ ("") then ("&langRestrict=") ++ options.language.getD ("")
    else ("")
  ("https://www.googleapis.com/books/v1/volumes?q=") ++ encodeURIComponent (wrapQuery query)
    ++ langParam ++ ("&maxResults=") ++ toString maxResults

/-- The pass-through condition in the words of the specification: the query
contains a colon, or consists solely of digits and hyphens. -/
def specPassThrough (q : String) : Bool :=
  q.toList.contains (':') || (!q.isEmpty && q.toList.all (fun c => c.isDigit || c == '-'))

/-- Stable insertion step for the descending sort: the new element goes in
front of the first element whose score it reaches, and stays behind every
strictly larger one. -/
def insertDesc (x : Book × ℚ) : List (Book × ℚ) → List (Book × ℚ)
  | [] => [x]
  | y :: ys => if y.2 ≤ x.2 then x :: y :: ys else y :: insertDesc x ys

/-- Model of scoredResults.sort((a, b) => b.score - a.score).  The
ECMAScript sort is stable, so with this comparator the result is the unique
reordering that is descending by score with ties in original order; stable
insertion from the right produces exactly that reordering. -/
def sortByScoreDesc : List (Book × ℚ) → List (Book × ℚ)
  | [] => []
  | x :: xs => insertDesc x (sortByScoreDesc xs)

/-- Normalization of the chosen candidate, transcribed from the return
block of search: falsy-defaulting of every optional field, the synthesized
fallback image URL, and first-match ISBN extraction. -/
def normalizeSearch (result : Book) : BookResult :=
  { title := result.volumeInfo.title
  , authors := result.volumeInfo.authors.getD []
  , publisher := result.volumeInfo.publisher.getD ("")
  , publishedDate := result.volumeInfo.publishedDate.getD ("")
  , description := result.volumeInfo.description.getD ("")
  , image :=
      if ((result.volumeInfo.imageLinks.map ImageLinks.thumbnail).getD ("")) ≠ ("") then
        ((result.volumeInfo.imageLinks.map ImageLinks.thumbnail).getD (""))
      else
        ("https://tse2.mm.bing.net/th?q=")
          ++ encodeURIComponent (result.volumeInfo.title ++ (" by ")
              ++ String.intercalate (", ") (result.volumeInfo.authors.getD []))
          ++ ("&w=256&c=7&rs=1&p=0&dpr=3&pid=1.7&mkt=en-IN&adlt=moderate")
  , language := result.volumeInfo.language.getD ("")
  , averageRating := result.volumeInfo.averageRating.getD 0
  , ratingsCount := result.volumeInfo.ratingsCount.getD 0
  , categories := result.volumeInfo.categories.getD []
  , pageCount := result.volumeInfo.pageCount.getD 0
  , isbn10 := ((result.volumeInfo.industryIdentifiers.getD []).find?
      (fun i => i.type == ("ISBN_10"))).map IndustryIdentifier.identifier
  , isbn13 := ((result.volumeInfo.industryIdentifiers.getD []).find?
      (fun i => i.type == ("ISBN_13"))).map IndustryIdentifier.identifier
  , googleBooks :=
    { id := result.id
    , preview := result.volumeInfo.previewLink.getD ("")
    , info := result.volumeInfo.infoLink.getD ("")
    , canonical := result.volumeInfo.canonicalVolumeLink.getD ("") } }

/-- Normalization of the first candidate, transcribed separately from the
textually duplicated return block of searchByIsbn. -/
def normalizeIsbn (result : Book) : BookResult :=
  { title := result.volumeInfo.title
  , authors := result.volumeInfo.authors.getD []
  , publisher := result.volumeInfo.publisher.getD ("")
  , publishedDate := result.volumeInfo.publishedDate.getD ("")
  , description := result.volumeInfo.description.getD ("")
  , image :=
      if ((result.volumeInfo.imageLinks.map ImageLinks.thumbnail).getD ("")) ≠ ("") then
        ((result.volumeInfo.imageLinks.map ImageLinks.thumbnail).getD (""))
      else
        ("https://tse2.mm.bing.net/th?q=")
          ++ encodeURIComponent (result.volumeInfo.title ++ (" by ")
              ++ String.intercalate (", ") (result.volumeInfo.authors.getD []))
          ++ ("&w=256&c=7&rs=1&p=0&dpr=3&pid=1.7&mkt=en-IN&adlt=moderate")
  , language := result.volumeInfo.language.getD ("")
  , averageRating := result.volumeInfo.averageRating.getD 0
  , ratingsCount := result.volumeInfo.ratingsCount.getD 0
  , categories := result.volumeInfo.categories.getD []
  , pageCount := result.volumeInfo.pageCount.getD 0
  , isbn10 := ((result.volumeInfo.industryIdentifiers.getD []).find?
      (fun i => i.type == ("ISBN_10"))).map IndustryIdentifier.identifier
  , isbn13 := ((result.volumeInfo.industryIdentifiers.getD []).find?
      (fun i => i.type == ("ISBN_13"))).map IndustryIdentifier.identifier
  , googleBooks :=
    { id := result.id
    , preview := result.volumeInfo.previewLink.getD ("")
    , info := result.volumeInfo.infoLink.getD ("")
    , canonical := result.volumeInfo.canonicalVolumeLink.getD ("") } }

/-- Tail of search after the two filter conditionals: the (never taken)
empty-set fallback would also reassign the const binding, then the stable
descending sort and the index-0 access feed normalization. -/
def searchFinish (scoredResults : List (Book × ℚ)) : Except SearchError BookResult :=
  if scoredResults.length = 0 then Except.error SearchError.constAssignment
  else
    match sortByScoreDesc scoredResults with
    | [] => Except.error SearchError.indexOutOfBounds
    | top :: _ => Except.ok (normalizeSearch top.1)

/-- The search operation on a decoded provider response.  A missing or
empty items list throws Book not found.  Every candidate is scored; a
positive minRating, or an exactTitleMatch narrowing that finds at least one
exact match, would reassign the const binding scoredResults and is a
constAssignment failure; otherwise the scored set is sorted and the top
candidate is normalized. -/
def search (query : String) (options : SearchOptions) (items : Option (List Book)) :
    Except SearchError BookResult :=
  let minRating := options.minRating.getD 0
  let exactTitleMatch := options.exactTitleMatch.getD false
  match items with
  | none => Except.error (SearchError.notFound ("Book not found"))
  | some is =>
    if is.length = 0 then Except.error (SearchError.notFound ("Book not found"))
    else
      let scoredResults := is.map (fun book => (book, score query book))
      if minRating > 0 then Except.error SearchError.constAssignment
      else if exactTitleMatch ∧
          0 < (scoredResults.filter (fun item =>
            jsTrim (jsToLowerCase item.1.volumeInfo.title) == jsTrim (jsToLowerCase query))).length then
        Except.error SearchError.constAssignment
      else searchFinish scoredResults

/-- The global replace of the hyphen by the empty string: remove every
hyphen from the ISBN. -/
def cleanIsbn (isbn : String) : String :=
  String.mk (isbn.toList.filter (fun c => c != '-'))

/-- The request URL searchByIsbn issues (the cleaned ISBN is interpolated
without encoding in the source). -/
def searchByIsbnUrl (isbn : String) : String :=
  ("https://www.googleapis.com/books/v1/volumes?q=isbn:") ++ cleanIsbn isbn

/-- The searchByIsbn operation on a decoded provider response: no scoring,
no filtering, no sorting; the first candidate is normalized, and the
not-found message quotes the ISBN as the caller gave it. -/
def searchByIsbn (isbn : String) (items : Option (List Book)) : Except SearchError BookResult :=
  match items with
  | none => Except.error (SearchError.notFound (("Book with ISBN ") ++ isbn ++ (" not found")))
  | some is =>
    match is with
    | [] => Except.error (SearchError.notFound (("Book with ISBN ") ++ isbn ++ (" not found")))
    | result :: _ => Except.ok (normalizeIsbn result)

/-- Recognizer for the indexOutOfBounds failure. -/
def isIndexError : Except SearchError BookResult → Bool
  | Except.error SearchError.indexOutOfBounds => true
  | _ => false

/-- A volumeInfo with every optional field absent and an empty title. -/
def emptyVolumeInfo : VolumeInfo := { title := ("") }

/-- Demonstration candidate: rated exact-match material. -/
def demoDune : Book :=
  ⟨("vol-dune"),
   { emptyVolumeInfo with
       title := ("Dune"), averageRating := some 4, ratingsCount := some 100,
       description := some ("A landmark novel") }⟩

/-- Demonstration candidate with a partially matching title. -/
def demoDuneMessiah : Book := ⟨("vol-dune-2"), { emptyVolumeInfo with title := ("Dune Messiah") }⟩

/-- Demonstration candidate with no rating at all. -/
def demoBookNoRating : Book := ⟨("vol-b"), { emptyVolumeInfo with title := ("b") }⟩

/-- Candidate refuting the literal scoring formula of the specification:
empty title, present-but-empty description and thumbnail. -/
def c1CexBook : Book :=
  ⟨("vol-c1"),
   { emptyVolumeInfo with title := (""), description := some (""), imageLinks := some ⟨("")⟩ }⟩

/-- Candidate of the missing-image scenario: title Foo, authors [Bar]. -/
def fooBook : Book :=
  ⟨("vol-foo"), { emptyVolumeInfo with title := ("Foo"), authors := some [("Bar")] }⟩

/-- A concrete scored list with a score tie, for the sorting witness. -/
def demoScored : List (Book × ℚ) :=
  [(⟨("a"), emptyVolumeInfo⟩, 5), (⟨("b"), emptyVolumeInfo⟩, 7), (⟨("c"), emptyVolumeInfo⟩, 7)]

/-- Inserting adds exactly one element to the length. -/
theorem insertDesc_length (x : Book × ℚ) (l : List (Book × ℚ)) :
    (insertDesc x l).length = l.length + 1 := by
  induction l with
  | nil => rfl
  | cons y ys ih => by_cases h : y.2 ≤ x.2 <;> simp [insertDesc, h, ih]

/-- The sort preserves the length of the list. -/
theorem sortByScoreDesc_length (l : List (Book × ℚ)) :
    (sortByScoreDesc l).length = l.length := by
  induction l with
  | nil => rfl
  | cons x xs ih => simp [sortByScoreDesc, insertDesc_length, ih]

/-- Membership in an insertion. -/
theorem mem_insertDesc {b x : Book × ℚ} {l : List (Book × ℚ)} :
    b ∈ insertDesc x l ↔ b = x ∨ b ∈ l := by
  induction l with
  | nil => simp [insertDesc]
  | cons y ys ih =>
    by_cases h : y.2 ≤ x.2
    · simp [insertDesc, h, ih]
    · simp [insertDesc, h, ih]
      tauto

/-- Inserting into a descending list keeps it descending. -/
theorem insertDesc_pairwise (x : Book × ℚ) (l : List (Book × ℚ))
    (h : List.Pairwise (fun a b : Book × ℚ => b.2 ≤ a.2) l) :
    List.Pairwise (fun a b : Book × ℚ => b.2 ≤ a.2) (insertDesc x l) := by
  induction l with
  | nil => simp [insertDesc]
  | cons y ys ih =>
    rcases List.pairwise_cons.mp h with ⟨hy, hys⟩
    by_cases hxy : y.2 ≤ x.2
    · simp only [insertDesc, if_pos hxy]
      refine List.pairwise_cons.mpr ⟨?_, h⟩
      intro b hb
      rcases List.mem_cons.mp hb with rfl | hb'
      · exact hxy
      · exact le_trans (hy b hb') hxy
    · have hlt : x.2 < y.2 := not_le.mp hxy
      simp only [insertDesc, if_neg hxy]
      refine List.pairwise_cons.mpr ⟨?_, ih hys⟩
      intro b hb
      rcases mem_insertDesc.mp hb with rfl | hb'
      · exact le_of_lt hlt
      · exact hy b hb'

/-- The sort output is descending by score. -/
theorem sortByScoreDesc_pairwise (l : List (Book × ℚ)) :
    List.Pairwise (fun a b : Book × ℚ => b.2 ≤ a.2) (sortByScoreDesc l) := by
  induction l with
  | nil => simp [sortByScoreDesc]
  | cons x xs ih => exact insertDesc_pairwise x (sortByScoreDesc xs) ih

/-- Insertion does not disturb the subsequence of any fixed score. -/
theorem insertDesc_filter (s : ℚ) (x : Book × ℚ) (l : List (Book × ℚ)) :
    (insertDesc x l).filter (fun e => decide (e.2 = s)) =
      ((x :: l).filter (fun e => decide (e.2 = s))) := by
  induction l with
  | nil => rfl
  | cons y ys ih =>
    by_cases hxy : y.2 ≤ x.2
    · simp [insertDesc, hxy]
    · have hlt : x.2 < y.2 := not_le.mp hxy
      by_cases hys : y.2 = s
      · have hxs : ¬ x.2 = s := fun hxs => (ne_of_lt hlt) (hxs.trans hys.symm)
        simp only [insertDesc, if_neg hxy, List.filter_cons] at ih ⊢
        simp [hys, hxs] at ih ⊢
        exact ih
      · simp only [insertDesc, if_neg hxy, List.filter_cons] at ih ⊢
        simp [hys] at ih ⊢
        exact ih

/-- Stability of the sort: for every score value, the elements carrying that
score appear in the output in their original order. -/
theorem sortByScoreDesc_filter (s : ℚ) (l : List (Book × ℚ)) :
    (sortByScoreDesc l).filter (fun e => decide (e.2 = s)) =
      l.filter (fun e => decide (e.2 = s)) := by
  induction l with
  | nil => rfl
  | cons x xs ih =>
    have h := insertDesc_filter s x (sortByScoreDesc xs)
    simp only [sortByScoreDesc, h, List.filter_cons, ih]

/-- The head of the sorted list is the earliest maximal-score element of
the input. -/
theorem sortByScoreDesc_head_spec (l : List (Book × ℚ)) (hne : l ≠ []) :
    ∃ x t', sortByScoreDesc l = x :: t' ∧ x ∈ l ∧ (∀ y, y ∈ l → y.2 ≤ x.2) ∧
      l.find? (fun y => decide (y.2 = x.2)) = some x := by
  induction l with
  | nil => exact absurd rfl hne
  | cons a t ih =>
    cases t with
    | nil =>
      refine ⟨a, [], rfl, List.mem_cons_self a [], ?_, ?_⟩
      · intro y hy
        rcases List.mem_cons.mp hy with rfl | hy'
        · exact le_refl _
        · exact absurd hy' (List.not_mem_nil y)
      · simp [List.find?]
    | cons c cs =>
      obtain ⟨x, t', hsort, hmem, hmax, hfind⟩ := ih (by simp)
      by_cases hax : x.2 ≤ a.2
      · refine ⟨a, x :: t', ?_, List.mem_cons_self a _, ?_, ?_⟩
        · show insertDesc a (sortByScoreDesc (c :: cs)) = a :: x :: t'
          rw [hsort]
          simp [insertDesc, hax]
        · intro y hy
          rcases List.mem_cons.mp hy with rfl | hy'
          · exact le_refl _
          · exact le_trans (hmax y hy') hax
        · simp [List.find?]
      · have hlt : a.2 < x.2 := not_le.mp hax
        refine ⟨x, insertDesc a t', ?_, List.mem_cons_of_mem a hmem, ?_, ?_⟩
        · show insertDesc a (sortByScoreDesc (c :: cs)) = x :: insertDesc a t'
          rw [hsort]
          simp [insertDesc, hax]
        · intro y hy
          rcases List.mem_cons.mp hy with rfl | hy'
          · exact le_of_lt hlt
          · exact hmax y hy'
        · have hdec : (fun y : Book × ℚ => decide (y.2 = x.2)) a = false :=
            decide_eq_false (ne_of_lt hlt)
          simp only [List.find?, hdec]
          exact hfind

/-- Including a one-character needle is character membership. -/
theorem listIncludes_singleton (l : List Char) (c : Char) :
    listIncludes l [c] = l.contains c := by
  induction l with
  | nil => rfl
  | cons a t ih =>
    simp only [listIncludes, List.isPrefixOf, Bool.and_true, ih, List.contains_cons]

/-- C9: the normalization used on the search return path and the one used
on the searchByIsbn return path agree on every raw candidate, field for
field. -/
theorem c9_normalization_paths_agree (b : Book) : normalizeSearch b = normalizeIsbn b := rfl

/-- C6: searchByIsbn removes every hyphen from the input, queries the
provider with an ISBN-qualified query built from the stripped string,
normalizes the first candidate without scoring or sorting, and on zero
candidates (or a missing list) fails with a message quoting the ISBN as
given by the caller. -/
theorem c6_search_by_isbn_behavior (isbn : String) (b : Book) (bs : List Book) :
    ((cleanIsbn isbn).toList.all (fun c => c != '-')) = true
    ∧ searchByIsbnUrl isbn =
        ("https://www.googleapis.com/books/v1/volumes?q=isbn:") ++ cleanIsbn isbn
    ∧ searchByIsbn isbn none =
        Except.error (SearchError.notFound (("Book with ISBN ") ++ isbn ++ (" not found")))
    ∧ searchByIsbn isbn (some []) =
        Except.error (SearchError.notFound (("Book with ISBN ") ++ isbn ++ (" not found")))
    ∧ searchByIsbn isbn (some (b :: bs)) = Except.ok (normalizeIsbn b) := by
  refine ⟨?_, rfl, rfl, rfl, rfl⟩
  show ((isbn.toList.filter (fun c => c != '-')).all (fun c => c != '-')) = true
  refine List.all_eq_true.mpr ?_
  intro c hc
  exact (List.mem_filter.mp hc).2

/-- C1 (counterexample): on a candidate with an empty title, a present but
empty description and a present but empty thumbnail, and the empty query,
the code computes score 10 while the formula of the claim yields 70 (the
exact-title bonus and the two presence bonuses). -/
theorem c1_score_formula_counterexample :
    score ("") c1CexBook = 10 ∧ specScore ("") c1CexBook = 70 ∧
      score ("") c1CexBook ≠ specScore ("") c1CexBook := by
  have h1 : score ("") c1CexBook = 10 := by
    simp [score, c1CexBook, emptyVolumeInfo]
  have h2 : specScore ("") c1CexBook = 70 := by
    simp [specScore, c1CexBook, emptyVolumeInfo]
    norm_num
  refine ⟨h1, h2, ?_⟩
  rw [h1, h2]
  norm_num

/-- C1 (amended): the relevance score is exactly base 10 plus
ratingsCount / 100 plus averageRating * 5, plus 50 for a non-empty title
that equals the query after case-folding and trimming, else 20 for a
non-empty title containing the query case-insensitively, plus 5 each for a
non-empty description, a non-empty thumbnail and a non-empty identifier
list; the two title bonuses are mutually exclusive by construction, and the
score of a candidate inside the scored list depends only on that candidate
and the query, not on its neighbours. -/
theorem c1_score_matches_guarded_formula (query : String) (book : Book) :
    score query book = specScoreAmended query book
    ∧ ∀ (l₁ l₂ : List Book),
        (l₁ ++ book :: l₂).map (fun bk => (bk, score query bk)) =
          l₁.map (fun bk => (bk, score query bk)) ++
            ((book, score query book) :: l₂.map (fun bk => (bk, score query bk))) := by
  constructor
  · simp only [score, specScoreAmended]
    split_ifs <;> ring
  · intro l₁ l₂
    simp

/-- On a non-empty candidate list, search reduces to the two filter
conditionals followed by searchFinish. -/
theorem search_eval_split (query : String) (opts : SearchOptions) (b : Book) (bs : List Book) :
    search query opts (some (b :: bs)) =
      if opts.minRating.getD 0 > 0 then Except.error SearchError.constAssignment
      else if opts.exactTitleMatch.getD false ∧
          0 < (((b :: bs).map (fun book => (book, score query book))).filter (fun item =>
            jsTrim (jsToLowerCase item.1.volumeInfo.title) == jsTrim (jsToLowerCase query))).length then
        Except.error SearchError.constAssignment
      else searchFinish ((b :: bs).map (fun book => (book, score query book))) := by
  simp only [search]
  rw [if_neg (by simp : ¬ ((b :: bs).length = 0))]

/-- searchFinish returns the normalization of the head of the sorted list. -/
theorem searchFinish_eq_ok (l : List (Book × ℚ)) (top : Book × ℚ) (rest : List (Book × ℚ))
    (h : sortByScoreDesc l = top :: rest) (hne : l ≠ []) :
    searchFinish l = Except.ok (normalizeSearch top.1) := by
  simp only [searchFinish]
  rw [if_neg (fun hlen => hne (List.length_eq_zero.mp hlen)), h]

/-- Under default options search is searchFinish of the scored list. -/
theorem search_default_opts (query : String) (b : Book) (bs : List Book) :
    search query {} (some (b :: bs)) =
      searchFinish ((b :: bs).map (fun book => (book, score query book))) := by
  rw [search_eval_split]
  rw [if_neg (by simp), if_neg (by simp)]

/-- C10: on every provider response with at least one candidate, the
index-0 access into the sorted working set is in bounds: search never
produces the indexOutOfBounds failure. -/
theorem c10_top_access_in_bounds (query : String) (opts : SearchOptions) (b : Book)
    (bs : List Book) :
    isIndexError (search query opts (some (b :: bs))) = false := by
  rw [search_eval_split]
  split
  · rfl
  · split
    · rfl
    · obtain ⟨x, t', hs, -, -, -⟩ :=
        sortByScoreDesc_head_spec ((b :: bs).map (fun book => (book, score query book))) (by simp)
      rw [searchFinish_eq_ok _ x t' hs (by simp)]
      rfl

/-- C2: a request that turns the minRating filter on.  The specification
requires the score-0 fallback so that filtering never fails; the code
instead reassigns the const binding scoredResults as soon as minRating is
positive, so the call fails even though a candidate exists (the candidate
has no rating, so the filter would have emptied the set and the fallback
should have returned it with score 0). -/
theorem c2_min_rating_filter_fault_eval :
    search ("zzz") { minRating := some 3 } (some [demoBookNoRating]) =
      Except.error SearchError.constAssignment := by
  rw [search_eval_split]
  rw [if_pos (by norm_num)]

/-- C3: with exactTitleMatch requested, the code faults with the const
reassignment precisely when an exact match exists (first conjunct, where
narrowing should have happened); when no exact match exists the option is
indeed a no-op and the call succeeds (second conjunct). -/
theorem c3_exact_title_match_fault_eval :
    search ("dune") { exactTitleMatch := some true } (some [demoDune, demoDuneMessiah]) =
      Except.error SearchError.constAssignment
    ∧ search ("qqq") { exactTitleMatch := some true } (some [demoDune]) =
      Except.ok (normalizeSearch demoDune) := by
  constructor
  · rw [search_eval_split]
    rw [if_neg (by simp), if_pos (by decide)]
  · rw [search_eval_split]
    rw [if_neg (by simp), if_neg (by decide)]
    exact searchFinish_eq_ok _ (demoDune, score ("qqq") demoDune) [] rfl (by simp)

/-- C5: the NotFound failure arises exactly from a missing or empty items
list, for both operations (first four conjuncts); but it is not true that in
every other case a NormalizedBook is returned: with candidates present, a
default-option call succeeds (fifth conjunct) while a positive minRating
makes the call fail with the const reassignment instead of returning a
result (sixth conjunct). -/
theorem c5_not_found_and_fault_eval :
    search ("a") {} none = Except.error (SearchError.notFound ("Book not found"))
    ∧ search ("a") {} (some []) = Except.error (SearchError.notFound ("Book not found"))
    ∧ searchByIsbn ("1-2") none =
        Except.error (SearchError.notFound ("Book with ISBN 1-2 not found"))
    ∧ searchByIsbn ("1-2") (some []) =
        Except.error (SearchError.notFound ("Book with ISBN 1-2 not found"))
    ∧ (search ("a") {} (some [demoDune])).isOk = true
    ∧ search ("a") { minRating := some 3 } (some [demoDune]) =
        Except.error SearchError.constAssignment := by
  refine ⟨rfl, rfl, rfl, rfl, ?_, ?_⟩
  · rw [search_default_opts]
    rw [searchFinish_eq_ok ([demoDune].map (fun book => (book, score ("a") book)))
      (demoDune, score ("a") demoDune) [] rfl (by simp)]
    rfl
  · rw [search_eval_split]
    rw [if_pos (by norm_num)]

/-- C4: the comparator sort of search is a stable descending sort, and the
returned candidate is the head of the sorted list: the output is descending
by score; for every score value the candidates carrying it keep their
provider order; the head of the sorted list is a maximal-score candidate
and is the first element of the input attaining its score; and under
default options search returns the normalization of exactly that head. -/
theorem c4_sort_stable_descending (query : String) (l : List (Book × ℚ)) :
    List.Pairwise (fun a b : Book × ℚ => b.2 ≤ a.2) (sortByScoreDesc l)
    ∧ (∀ s : ℚ, (sortByScoreDesc l).filter (fun e => decide (e.2 = s)) =
        l.filter (fun e => decide (e.2 = s)))
    ∧ (l ≠ [] → ∃ x t', sortByScoreDesc l = x :: t' ∧ x ∈ l ∧ (∀ y, y ∈ l → y.2 ≤ x.2) ∧
        l.find? (fun y => decide (y.2 = x.2)) = some x)
    ∧ (∀ (b : Book) (bs : List Book), ∃ top rest,
        sortByScoreDesc ((b :: bs).map (fun book => (book, score query book))) = top :: rest ∧
        search query {} (some (b :: bs)) = Except.ok (normalizeSearch top.1)) := by
  refine ⟨sortByScoreDesc_pairwise l, fun s => sortByScoreDesc_filter s l,
    fun h => sortByScoreDesc_head_spec l h, ?_⟩
  intro b bs
  obtain ⟨x, t', hsort, -, -, -⟩ :=
    sortByScoreDesc_head_spec ((b :: bs).map (fun book => (book, score query book))) (by simp)
  refine ⟨x, t', hsort, ?_⟩
  rw [search_default_opts, searchFinish_eq_ok _ x t' hsort (by simp)]

/-- C4 witness: the stability and head properties evaluated on a concrete
scored list with a tie, and the search link on a concrete candidate. -/
theorem c4_sort_stable_descending_witness :
    List.Pairwise (fun a b : Book × ℚ => b.2 ≤ a.2) (sortByScoreDesc demoScored)
    ∧ (sortByScoreDesc demoScored).filter (fun e => decide (e.2 = 7)) =
        demoScored.filter (fun e => decide (e.2 = 7))
    ∧ (∃ x t', sortByScoreDesc demoScored = x :: t' ∧ x ∈ demoScored ∧
        (∀ y, y ∈ demoScored → y.2 ≤ x.2) ∧
        demoScored.find? (fun y => decide (y.2 = x.2)) = some x)
    ∧ (∃ top rest,
        sortByScoreDesc ([demoDune].map (fun book => (book, score ("q") book))) = top :: rest ∧
        search ("q") {} (some [demoDune]) = Except.ok (normalizeSearch top.1)) := by
  have h := c4_sort_stable_descending ("q") demoScored
  exact ⟨h.1, h.2.1 7, h.2.2.1 (by simp [demoScored]), h.2.2.2 demoDune []⟩

/-- C7: when the provider supplies no thumbnail, normalization synthesizes
the deterministic fallback image-search URL over the encoded string
title-by-authors with the fixed presentation parameters, and the image
field of every normalized record is non-empty. -/
theorem c7_image_fallback (b : Book) :
    (b.volumeInfo.imageLinks = none →
      (normalizeSearch b).image =
        ("https://tse2.mm.bing.net/th?q=")
          ++ encodeURIComponent (b.volumeInfo.title ++ (" by ")
              ++ String.intercalate (", ") (b.volumeInfo.authors.getD []))
          ++ ("&w=256&c=7&rs=1&p=0&dpr=3&pid=1.7&mkt=en-IN&adlt=moderate"))
    ∧ (normalizeSearch b).image ≠ ("") := by
  have himg : (normalizeSearch b).image =
      if ((b.volumeInfo.imageLinks.map ImageLinks.thumbnail).getD ("")) ≠ ("") then
        ((b.volumeInfo.imageLinks.map ImageLinks.thumbnail).getD (""))
      else
        ("https://tse2.mm.bing.net/th?q=")
          ++ encodeURIComponent (b.volumeInfo.title ++ (" by ")
              ++ String.intercalate (", ") (b.volumeInfo.authors.getD []))
          ++ ("&w=256&c=7&rs=1&p=0&dpr=3&pid=1.7&mkt=en-IN&adlt=moderate") := rfl
  constructor
  · intro h
    rw [himg, h]
    simp
  · rw [himg]
    by_cases ht : ((b.volumeInfo.imageLinks.map ImageLinks.thumbnail).getD ("")) ≠ ("")
    · rw [if_pos ht]
      exact ht
    · rw [if_neg ht]
      intro hcontra
      have hlen := congrArg String.length hcontra
      simp [String.length_append] at hlen
      exact absurd hlen.1.1 (by decide)

/-- C7 witness: the missing-image scenario of the specification, title Foo
and authors [Bar], yields the concrete fallback URL. -/
theorem c7_image_fallback_witness :
    (normalizeSearch fooBook).image =
      ("https://tse2.mm.bing.net/th?q=Foo%20by%20Bar&w=256&c=7&rs=1&p=0&dpr=3&pid=1.7&mkt=en-IN&adlt=moderate") :=
  ((c7_image_fallback fooBook).1 rfl).trans (by decide)

/-- C8 (counterexample): with the language option set to the empty string,
the code appends no langRestrict parameter (the source guards the fragment
with JS truthiness, and the empty string is falsy), while the claim says
the parameter is appended exactly when the option is set: the produced URL
lacks the langRestrict fragment the claim demands. -/
theorem c8_url_language_counterexample :
    buildSearchUrl ("Dune") { language := some ("") } =
      ("https://www.googleapis.com/books/v1/volumes?q=intitle%3A%22Dune%22&maxResults=10")
    ∧ buildSearchUrl ("Dune") { language := some ("") } ≠
      ("https://www.googleapis.com/books/v1/volumes?q=intitle%3A%22Dune%22&langRestrict=&maxResults=10") :=
  ⟨by decide, by decide⟩

/-- C8 (amended): the query is passed to the provider unmodified exactly
when it contains a colon or consists solely of digits and hyphens, and is
otherwise wrapped as a quoted intitle search; the langRestrict parameter is
appended exactly when the language option is set to a non-empty string (a
set-but-empty language is falsy and appends nothing), and maxResults is
appended with the given or default value 10. -/
theorem c8_query_construction (q : String) (opts : SearchOptions) :
    (specPassThrough q = true → wrapQuery q = q)
    ∧ (specPassThrough q = false → wrapQuery q = ("intitle:\"") ++ q ++ ("\""))
    ∧ (∀ lang, opts.language = some lang → lang ≠ ("") →
        buildSearchUrl q opts =
          ("https://www.googleapis.com/books/v1/volumes?q=") ++ encodeURIComponent (wrapQuery q)
            ++ (("&langRestrict=") ++ lang) ++ ("&maxResults=") ++ toString (opts.maxResults.getD 10))
    ∧ (opts.language.getD ("") = ("") →
        buildSearchUrl q opts =
          ("https://www.googleapis.com/books/v1/volumes?q=") ++ encodeURIComponent (wrapQuery q)
            ++ ("&maxResults=") ++ toString (opts.maxResults.getD 10)) := by
  have hinc : strIncludes q (":") = q.toList.contains (':') := by
    show listIncludes q.toList ((":").toList) = q.toList.contains (':')
    have hl : ((":") : String).toList = [':'] := rfl
    rw [hl]
    exact listIncludes_singleton q.toList ':'
  have hsp : specPassThrough q = (q.toList.contains (':') || matchDigitsHyphens q) := rfl
  refine ⟨?_, ?_, ?_, ?_⟩
  · intro h
    rw [hsp] at h
    cases hc : q.toList.contains (':') <;> cases hm : matchDigitsHyphens q <;>
      simp_all [wrapQuery, hinc]
  · intro h
    rw [hsp] at h
    cases hc : q.toList.contains (':') <;> cases hm : matchDigitsHyphens q <;>
      simp_all [wrapQuery, hinc]
  · intro lang hl hne
    simp [buildSearchUrl, hl, hne]
  · intro hl
    simp [buildSearchUrl, hl]

/-- C8 witness: a digits-and-hyphens query passes through, a plain title is
wrapped and quoted, a concrete request URL with a non-empty language
restriction and the default result cap, and the falsy empty-string language
appending nothing. -/
theorem c8_query_construction_witness :
    wrapQuery ("9780441013593") = ("9780441013593")
    ∧ wrapQuery ("Dune") = ("intitle:\"Dune\"")
    ∧ buildSearchUrl ("Dune") { language := some ("en") } =
      ("https://www.googleapis.com/books/v1/volumes?q=intitle%3A%22Dune%22&langRestrict=en&maxResults=10")
    ∧ buildSearchUrl ("Dune") { language := some ("") } =
      ("https://www.googleapis.com/books/v1/volumes?q=intitle%3A%22Dune%22&maxResults=10") := by
  refine ⟨(c8_query_construction ("9780441013593") {}).1 (by decide),
    ((c8_query_construction ("Dune") {}).2.1 (by decide)).trans (by decide), ?_, ?_⟩
  · have h := (c8_query_construction ("Dune") { language := some ("en") }).2.2.1 ("en") rfl
      (by decide)
    rw [h]
    decide
  · have h := (c8_query_construction ("Dune") { language := some ("") }).2.2.2 rfl
    rw [h]
    decide
